import Mathlib

/-!
A shallow embedding of the APOGEE exposure widget
(`TUI/Inst/APOGEE/ExposeWdg.py`) from the SDSS STUI repository.

The widget mediates between an external keyword model (telemetry pushed by
the `apogee` actor) and outgoing text commands.  We embed:

* the keyword variables the widget subscribes to, as typed records of
  optional elements plus an `isCurrent` validity flag (an element is `none`
  when the Python value is `None`; each keyword has the fixed arity and
  element types of the APOGEE keyword dictionary);
* the widget-layer state (entry values, option-menu items and selections,
  stored defaults, layout and button-enable flags) as a record;
* each keyword / widget callback as a state transformer; callbacks that can
  raise a Python exception return `Except String`, the string naming the
  exception raised;
* the command builders `getDitherCmd`, `getExposureCmd`, `stopExposure` and
  the script function `_exposureScriptRun`, the latter as the ordered trace
  of command events it produces (each `yield sr.waitCmd(...)` suspends until
  the command finishes, so a command is issued and then finishes before the
  next command is issued).

Python float percent-formatting with a precision of 2, 1 or 0 digits is
modelled over `ℚ` with round-half-to-even, the rounding Python applies when
printing.  Numeric entry fields hold rationals (integers for the reads
field); machine float representation issues are outside the claims checked
here, which concern the shape of the printed text.
-/

namespace Apogee

/-! ### Python number formatting -/

/-- Round half to even (the rounding used by Python float percent-formats),
computed on the numerator and denominator: `f` is the floor of `q` (since
`q.den > 0`), `r / q.den` with `0 ≤ r < q.den` its fractional part, and the
fractional part is below, above or exactly one half according as `2 * r` is
below, above or equal to `q.den`. -/
def roundHalfEven (q : ℚ) : ℤ :=
  let f : ℤ := Int.fdiv q.num q.den
  let r : ℤ := q.num - f * (q.den : ℤ)
  if 2 * r < (q.den : ℤ) then f
  else if (q.den : ℤ) < 2 * r then f + 1
  else if f % 2 = 0 then f else f + 1

/-- Decimal rendering of `k < 100` as exactly two digit characters, zero
padded: the fractional part of a two-digit-precision Python float format. -/
def pad2 (k : ℕ) : String :=
  String.mk [Char.ofNat (48 + k / 10), Char.ofNat (48 + k % 10)]

/-- Python float percent-format with two digits after the decimal point. -/
def fmt2 (q : ℚ) : String :=
  (if roundHalfEven (q * 100) < 0 then "-" else "")
    ++ toString ((roundHalfEven (q * 100)).natAbs / 100)
    ++ "." ++ pad2 ((roundHalfEven (q * 100)).natAbs % 100)

/-- Python float percent-format with one digit after the decimal point. -/
def fmt1 (q : ℚ) : String :=
  (if roundHalfEven (q * 10) < 0 then "-" else "")
    ++ toString ((roundHalfEven (q * 10)).natAbs / 10)
    ++ "." ++ String.mk [Char.ofNat (48 + (roundHalfEven (q * 10)).natAbs % 10)]

/-- Python float percent-format with no digits after the decimal point. -/
def fmt0 (q : ℚ) : String :=
  toString (roundHalfEven q)

/-! ### Keyword variables of the `apogee` model used by the widget -/

/-- The `ditherPosition` keyword: element 0 is the dither position in pixels,
element 1 is the dither name (a string such as "A" or "B"). -/
structure DitherPositionKV where
  pos : Option ℚ
  name : Option String
  isCurrent : Bool
  deriving DecidableEq

/-- The `ditherLimits` keyword: minimum and maximum dither position. -/
structure DitherLimitsKV where
  minPos : Option ℚ
  maxPos : Option ℚ
  isCurrent : Bool
  deriving DecidableEq

/-- The `ditherNamedPositions` keyword: pixel positions of the named dither
positions A and B. -/
structure DitherNamedPositionsKV where
  aPos : Option ℚ
  bPos : Option ℚ
  isCurrent : Bool
  deriving DecidableEq

/-- The `exposureTypeList` keyword: the list of exposure type names. -/
structure ExposureTypeListKV where
  elems : List (Option String)
  isCurrent : Bool
  deriving DecidableEq

/-- The `exposureState` keyword: element 0 is the exposure state name,
element 1 the exposure type, element 2 the number of reads. -/
structure ExposureStateKV where
  expState : Option String
  expType : Option String
  nReads : Option ℤ
  isCurrent : Bool
  deriving DecidableEq

/-- The `utrReadTime` keyword: element 0 is the time per up-the-ramp read. -/
structure UtrReadTimeKV where
  readTime : Option ℚ
  isCurrent : Bool
  deriving DecidableEq

/-- The slice of the `apogee` keyword model the widget subscribes to
(`self.model` in `ExposeWdg.__init__`). -/
structure ApogeeModel where
  ditherPosition : DitherPositionKV
  ditherLimits : DitherLimitsKV
  ditherNamedPositions : DitherNamedPositionsKV
  exposureTypeList : ExposureTypeListKV
  exposureState : ExposureStateKV
  utrReadTime : UtrReadTimeKV
  deriving DecidableEq

/-! ### Widget-layer state -/

/-- On-screen state of the exposure widget: for each control, the value the
user sees, the stored default (`setDefault`), and layout / enable flags.
Entry values are the result of `getNumOrNone`: `none` when the field is
empty or unparsable. -/
structure WidgetState where
  ditherNameItems : List String
  ditherNameValue : String
  ditherNameDefault : Option String
  ditherNameDefIsCurrent : Bool
  ditherPosValue : Option ℚ
  ditherPosDefault : Option ℚ
  ditherPosDefIsCurrent : Bool
  ditherPosRange : Option (ℚ × ℚ)
  ditherPosGridded : Bool
  ditherUnitsGridded : Bool
  expTypeItems : List (Option String)
  expTypeValue : String
  expTypeDefault : Option String
  numReadsValue : Option ℤ
  numReadsDefault : Option ℤ
  estReadTimeText : String
  estReadTimeIsCurrent : Bool
  exposeBtnEnabled : Bool
  stopBtnEnabled : Bool
  cancelBtnEnabled : Bool
  deriving DecidableEq

/-- Full state seen by the widget code: the external keyword model, the
widget-layer fields, and the script runner's "is executing" flag. -/
structure ExposeWdgState where
  model : ApogeeModel
  wdg : WidgetState
  scriptRunnerIsExecuting : Bool
  deriving DecidableEq

/-- The actor addressed by every outgoing command (`self.actor = "apogee"`). -/
def actor : String := "apogee"

/-- Exposure states during which an exposure is running
(`ExposeWdg.RunningExposureStates`). -/
def RunningExposureStates : List String :=
  ["Exposing", "READING", "INTEGRATING", "PROCESSING", "UTR"]

/-- Whether the current exposure state is a running state
(`self.model.exposureState[0] in self.RunningExposureStates`; a `None`
element is in no set of strings). -/
def isExposing (s : ExposeWdgState) : Bool :=
  match s.model.exposureState.expState with
  | some st => decide (st ∈ RunningExposureStates)
  | none => false

/-- `ExposeWdg.enableButtons` (lines 280-285): enable Expose unless the
script is running or an exposure is in progress; enable Stop while an
exposure is in progress; enable Cancel while the script is running. -/
def enableButtons (s : ExposeWdgState) : ExposeWdgState :=
  { s with wdg := { s.wdg with
      exposeBtnEnabled := !(s.scriptRunnerIsExecuting || isExposing s),
      stopBtnEnabled := isExposing s,
      cancelBtnEnabled := s.scriptRunnerIsExecuting } }

/-- State of the widget right after `ExposeWdg.__init__`: dither menu items
"A", "B", "Any" with the first item showing; exposure types "Object" and
"Dark" with default "Object"; 60 reads by default; no keyword value seen yet
(every keyword element `none` and not current); button enables as set by the
`enableButtons` call at the end of `__init__`. -/
def initialState : ExposeWdgState where
  model := {
    ditherPosition := { pos := none, name := none, isCurrent := false }
    ditherLimits := { minPos := none, maxPos := none, isCurrent := false }
    ditherNamedPositions := { aPos := none, bPos := none, isCurrent := false }
    exposureTypeList := { elems := [], isCurrent := false }
    exposureState := { expState := none, expType := none, nReads := none, isCurrent := false }
    utrReadTime := { readTime := none, isCurrent := false } }
  wdg := {
    ditherNameItems := ["A", "B", "Any"]
    ditherNameValue := "A"
    ditherNameDefault := none
    ditherNameDefIsCurrent := true
    ditherPosValue := none
    ditherPosDefault := none
    ditherPosDefIsCurrent := true
    ditherPosRange := none
    ditherPosGridded := true
    ditherUnitsGridded := true
    expTypeItems := [some "Object", some "Dark"]
    expTypeValue := "Object"
    expTypeDefault := some "Object"
    numReadsValue := some 60
    numReadsDefault := some 60
    estReadTimeText := ""
    estReadTimeIsCurrent := true
    exposeBtnEnabled := true
    stopBtnEnabled := false
    cancelBtnEnabled := false }
  scriptRunnerIsExecuting := false

/-! ### Keyword and widget callbacks -/

/-- `_numReadsWdgCallback` (lines 157-171): update the estimated exposure
time label from the reads entry and the `utrReadTime` keyword. -/
def numReadsWdgCallback (s : ExposeWdgState) : ExposeWdgState :=
  match s.wdg.numReadsValue with
  | none =>
    { s with wdg := { s.wdg with estReadTimeText := "", estReadTimeIsCurrent := true } }
  | some numReads =>
    match s.model.utrReadTime.readTime with
    | none =>
      { s with wdg := { s.wdg with estReadTimeText := " ? sec", estReadTimeIsCurrent := false } }
    | some timePerRead =>
      { s with wdg := { s.wdg with
          estReadTimeText := " " ++ fmt0 ((numReads : ℚ) * timePerRead) ++ " sec",
          estReadTimeIsCurrent := s.model.utrReadTime.isCurrent } }

/-- `_ditherNameWdgCallback` (lines 173-182): show or hide the dither
position entry and its units label according to character 1 of the selected
dither name.  `name[1]` raises `IndexError` when the name has fewer than two
characters. -/
def ditherNameWdgCallback (s : ExposeWdgState) : Except String ExposeWdgState :=
  match (s.wdg.ditherNameValue).data.get? 1 with
  | none => Except.error "IndexError: string index out of range"
  | some c1 =>
    if c1 = ' ' then
      Except.ok { s with wdg := { s.wdg with
        ditherPosGridded := false, ditherUnitsGridded := false } }
    else
      Except.ok { s with wdg := { s.wdg with
        ditherPosGridded := true, ditherUnitsGridded := true } }

/-- `_ditherPositionCallback` (lines 184-189): set the dither position
default from element 0 and the dither name default from element 1, mapping
"A" to item 0, "B" to item 1 and anything else (including `None`) to item 2.
There is no guard for undefined elements.  The items list always has three
entries, so `List.get?` at the computed index never yields `none` in any
state the widget constructs. -/
def ditherPositionCallback (keyVar : DitherPositionKV) (s : ExposeWdgState) : ExposeWdgState :=
  let ditherInd : ℕ :=
    match keyVar.name with
    | some "A" => 0
    | some "B" => 1
    | _ => 2
  { s with wdg := { s.wdg with
      ditherPosDefault := keyVar.pos,
      ditherPosDefIsCurrent := keyVar.isCurrent,
      ditherNameDefault := s.wdg.ditherNameItems.get? ditherInd,
      ditherNameDefIsCurrent := keyVar.isCurrent } }

/-- `_ditherLimitsCallback` (lines 191-196): skip the update when any
element is `None`, else set the allowed range of the dither position entry.
On the non-skip path both elements are known, so `Option.getD` never uses
its fallback. -/
def ditherLimitsCallback (keyVar : DitherLimitsKV) (s : ExposeWdgState) : ExposeWdgState :=
  if keyVar.minPos = none ∨ keyVar.maxPos = none then s
  else { s with wdg := { s.wdg with
      ditherPosRange := some (keyVar.minPos.getD 0, keyVar.maxPos.getD 0) } }

/-- `_ditherNamedPositionsCallback` (lines 198-211): skip the update when
any element is `None`; else rebuild the dither menu items as
"A  [aPos] pixels", "B  [bPos] pixels", "Any", keeping the selected index.
Line 211 then calls this same callback again, passing the `ditherPosition`
keyword: that inner call returns at its guard when either element of
`ditherPosition` is `None`, and otherwise raises `TypeError` when it applies
a float percent-format to the string-valued element 1 of `ditherPosition`;
we inline that behaviour.  `getIndex` yields `none` when the selected value
is not among the items, in which case Python indexes a tuple with `None`
(`TypeError`). -/
def ditherNamedPositionsCallback (keyVar : DitherNamedPositionsKV) (s : ExposeWdgState) :
    Except String ExposeWdgState :=
  if keyVar.aPos = none ∨ keyVar.bPos = none then Except.ok s
  else
    match s.wdg.ditherNameItems.findIdx? (fun it => it == s.wdg.ditherNameValue) with
    | none => Except.error "TypeError: tuple indices must be integers"
    | some currIndex =>
      let valList : List String :=
        ["A  " ++ fmt1 (keyVar.aPos.getD 0) ++ " pixels",
         "B  " ++ fmt1 (keyVar.bPos.getD 0) ++ " pixels",
         "Any"]
      match valList.get? currIndex with
      | none => Except.error "IndexError: tuple index out of range"
      | some newValue =>
        let s1 := { s with wdg := { s.wdg with
          ditherNameItems := valList, ditherNameValue := newValue } }
        if s1.model.ditherPosition.pos = none ∨ s1.model.ditherPosition.name = none then
          Except.ok s1
        else Except.error "TypeError: float argument required, not str"

/-- `_exposureTypeListCallback` (lines 213-218): skip the update when
element 0 is `None`, else replace the exposure type menu items with the
keyword's elements. -/
def exposureTypeListCallback (keyVar : ExposureTypeListKV) (s : ExposeWdgState) :
    ExposeWdgState :=
  if keyVar.elems.getD 0 none = none then s
  else { s with wdg := { s.wdg with expTypeItems := keyVar.elems } }

/-- `_exposureStateCallback` (lines 220-227): skip the update when element 0
is `None`, else set the exposure type and reads defaults from elements 1 and
2 and refresh the button enables. -/
def exposureStateCallback (keyVar : ExposureStateKV) (s : ExposeWdgState) : ExposeWdgState :=
  if keyVar.expState = none then s
  else
    enableButtons { s with wdg := { s.wdg with
      expTypeDefault := keyVar.expType,
      numReadsDefault := keyVar.nReads } }

/-! ### Outgoing commands -/

/-- `getDitherCmd` (lines 229-243): `None` when the dither setting is at its
default; otherwise a "dither namedpos=..." command when a named position
(character 1 of the selected name is a space) is selected, else a
"dither pixelpos=..." command from the position entry.  Reading character 1
of a selected name shorter than two characters raises `IndexError`.
`isDefault` of an RO widget compares the current value with the stored
default (false when no default is stored). -/
def getDitherCmd (s : ExposeWdgState) : Except String (Option String) :=
  match (s.wdg.ditherNameValue).data with
  | c0 :: c1 :: _ =>
    if c1 = ' ' then
      if s.wdg.ditherNameDefault = some s.wdg.ditherNameValue then Except.ok none
      else Except.ok (some ("dither namedpos=" ++ String.mk [c0]))
    else
      if s.wdg.ditherPosValue = s.wdg.ditherPosDefault then Except.ok none
      else
        match s.wdg.ditherPosValue with
        | none => Except.ok none
        | some pos => Except.ok (some ("dither pixelpos=" ++ fmt2 pos))
  | _ => Except.error "IndexError: string index out of range"

/-- `getExposureCmd` (lines 245-252): `getNum` yields 0 when the reads field
is empty, and 0 is falsy, so an unset read count raises `RuntimeError`;
otherwise format the exposure command from the read count and the selected
exposure type. -/
def getExposureCmd (s : ExposeWdgState) : Except String String :=
  if s.wdg.numReadsValue.getD 0 = 0 then
    Except.error "RuntimeError: Must specify number of reads"
  else
    Except.ok ("expose nreads=" ++ toString (s.wdg.numReadsValue.getD 0)
      ++ "; object=" ++ s.wdg.expTypeValue)

/-- A command handed to the dispatcher: target actor and command text
(`opscore.actor.CmdVar`). -/
structure CmdVar where
  actor : String
  cmdStr : String
  deriving DecidableEq

/-- `stopExposure` (lines 254-261): build a single command "expose stop" for
the `apogee` actor and hand it to the status bar, sending nothing else. -/
def stopExposure (_s : ExposeWdgState) : List CmdVar :=
  [{ actor := actor, cmdStr := "expose stop" }]

/-- One step of the exposure script's external behaviour: a command is
issued to an actor, or a previously issued command finishes. -/
inductive ScriptEvent where
  | cmdIssued (actor cmdStr : String)
  | cmdFinished (actor cmdStr : String)
  deriving DecidableEq

/-- Trace of `yield sr.waitCmd(actor=..., cmdStr=...)`: the command is
issued, and the script stays suspended until it finishes, so the finish
event precedes everything the script does afterwards. -/
def waitCmd (a c : String) : List ScriptEvent :=
  [ScriptEvent.cmdIssued a c, ScriptEvent.cmdFinished a c]

/-- `_exposureScriptRun` (lines 263-278) as the trace of command events a
run produces: both command strings are computed up front (an exception in
either aborts the run before any command is sent); then the dither command,
when there is one, is issued and awaited, and then the exposure command is
issued and awaited. -/
def exposureScriptRun (s : ExposeWdgState) : Except String (List ScriptEvent) :=
  match getDitherCmd s with
  | Except.error e => Except.error e
  | Except.ok ditherCmd =>
    match getExposureCmd s with
    | Except.error e => Except.error e
    | Except.ok exposureCmd =>
      Except.ok
        ((match ditherCmd with
          | some c => waitCmd actor c
          | none => []) ++ waitCmd actor exposureCmd)

/-! ### Helper lemmas -/

/-- The fractional block printed by `pad2` always has two characters. -/
theorem pad2_length (k : ℕ) : (pad2 k).length = 2 := rfl

/-- For `k < 100` both characters printed by `pad2` are decimal digits. -/
theorem pad2_digits : ∀ k : ℕ, k < 100 → (pad2 k).data.all Char.isDigit = true := by
  decide

/-- A two-digit-precision format always ends in a decimal point followed by
exactly two digit characters. -/
theorem fmt2_two_decimals (q : ℚ) :
    ∃ pre frac, fmt2 q = pre ++ "." ++ frac ∧ frac.length = 2
      ∧ frac.data.all Char.isDigit = true := by
  refine ⟨(if roundHalfEven (q * 100) < 0 then "-" else "")
      ++ toString ((roundHalfEven (q * 100)).natAbs / 100),
    pad2 ((roundHalfEven (q * 100)).natAbs % 100), rfl, pad2_length _, ?_⟩
  exact pad2_digits _ (Nat.mod_lt _ (by norm_num))

/-! ### Sample states used by the witnesses -/

/-- State after the dither named positions have arrived (A at 12.5 pixels,
B at 13.5 pixels), with "A  12.5 pixels" selected and "Any" the recorded
default: the dither setting differs from its default. -/
def ditherSetState : ExposeWdgState :=
  { initialState with wdg := { initialState.wdg with
      ditherNameItems := ["A  12.5 pixels", "B  13.5 pixels", "Any"],
      ditherNameValue := "A  12.5 pixels",
      ditherNameDefault := some "Any" } }

/-- State with "Any" selected and 12.34 pixels entered in the dither
position field (no default recorded). -/
def pixelState : ExposeWdgState :=
  { initialState with wdg := { initialState.wdg with
      ditherNameValue := "Any",
      ditherPosValue := some (mkRat 1234 100) } }

/-- State in which the `utrReadTime` keyword has been seen (10.6 seconds per
read, current). -/
def utrKnownState : ExposeWdgState :=
  { initialState with model := { initialState.model with
      utrReadTime := { readTime := some (mkRat 53 5), isCurrent := true } } }

/-- State reported by `exposureState` as currently exposing. -/
def exposingState : ExposeWdgState :=
  { initialState with model := { initialState.model with
      exposureState := { expState := some "Exposing", expType := some "Object",
                         nReads := some 60, isCurrent := true } } }

/-- A fully undefined `ditherPosition` keyword value. -/
def undefinedDitherPosition : DitherPositionKV :=
  { pos := none, name := none, isCurrent := true }

/-- A fully defined `ditherNamedPositions` keyword value (A at 12.5 pixels,
B at 13.5 pixels). -/
def namedPosKV : DitherNamedPositionsKV :=
  { aPos := some (mkRat 25 2), bPos := some (mkRat 27 2), isCurrent := true }

/-- The state `ditherNamedPositionsCallback namedPosKV` produces from the
initial state: the menu items are rebuilt and item 0 stays selected. -/
def namedPosUpdatedState : ExposeWdgState :=
  { initialState with wdg := { initialState.wdg with
      ditherNameItems := ["A  12.5 pixels", "B  13.5 pixels", "Any"],
      ditherNameValue := "A  12.5 pixels" } }

/-! ### Claims -/

/-- Claim C4: for every configured positive read count `n` and selected
exposure type `t`, `getExposureCmd` returns exactly the string
"expose nreads=" followed by `n` in decimal, then "; object=", then `t`. -/
theorem getExposureCmd_format (s : ExposeWdgState) (n : ℤ) (t : String)
    (hn : s.wdg.numReadsValue = some n) (hpos : 0 < n) (ht : s.wdg.expTypeValue = t) :
    getExposureCmd s = Except.ok ("expose nreads=" ++ toString n ++ "; object=" ++ t) := by
  unfold getExposureCmd
  rw [hn, ht]
  simp only [Option.getD_some]
  rw [if_neg (by omega)]

/-- Witness for C4: with 60 reads and type Object the initial state yields
exactly "expose nreads=60; object=Object". -/
theorem getExposureCmd_format_witness :
    getExposureCmd initialState = Except.ok "expose nreads=60; object=Object" :=
  (getExposureCmd_format initialState 60 "Object" rfl (by norm_num) rfl).trans rfl

/-- Claim C2: `getExposureCmd` raises a `RuntimeError` exactly when the
reads field yields no usable count (`getNum` is 0, as for an empty field),
and with a configured nonzero count it returns a command string without
raising. -/
theorem getExposureCmd_errors_iff_no_reads (s : ExposeWdgState) :
    ((∃ e, getExposureCmd s = Except.error e) ↔ s.wdg.numReadsValue.getD 0 = 0)
  ∧ (∀ n : ℤ, s.wdg.numReadsValue = some n → n ≠ 0 →
      getExposureCmd s
        = Except.ok ("expose nreads=" ++ toString n ++ "; object=" ++ s.wdg.expTypeValue)) := by
  constructor
  · constructor
    · rintro ⟨e, he⟩
      by_contra hz
      unfold getExposureCmd at he
      rw [if_neg hz] at he
      exact Except.noConfusion he
    · intro hz
      refine ⟨"RuntimeError: Must specify number of reads", ?_⟩
      unfold getExposureCmd
      rw [if_pos hz]
  · intro n hn hnz
    unfold getExposureCmd
    rw [hn]
    simp only [Option.getD_some]
    rw [if_neg hnz]

/-- Witness for C2: an empty reads field raises, and the initial 60-reads
state does not. -/
theorem getExposureCmd_errors_iff_no_reads_witness :
    (∃ e, getExposureCmd
        { initialState with wdg := { initialState.wdg with numReadsValue := none } }
      = Except.error e)
  ∧ getExposureCmd initialState
      = Except.ok ("expose nreads=" ++ toString (60 : ℤ) ++ "; object=" ++ "Object") := by
  constructor
  · exact (getExposureCmd_errors_iff_no_reads
      { initialState with wdg := { initialState.wdg with numReadsValue := none } }).1.mpr rfl
  · exact (getExposureCmd_errors_iff_no_reads initialState).2 60 rfl (by norm_num)

/-- Claim C6: for every widget state, pressing Stop builds exactly one
command, addressed to the "apogee" actor, whose text is "expose stop". -/
theorem stopExposure_sends_expose_stop (s : ExposeWdgState) :
    stopExposure s = [{ actor := "apogee", cmdStr := "expose stop" }] := rfl

/-- Claim C9: in the reachable state right after construction the dither
menu items are the one-character strings "A" and "B" (plus "Any"), and with
"A" selected both `getDitherCmd` and the dither name widget callback index
character 1 of a one-character string: each raises `IndexError` instead of
returning a command or adjusting the layout. -/
theorem initial_dither_name_oob :
    initialState.wdg.ditherNameItems = ["A", "B", "Any"]
  ∧ initialState.wdg.ditherNameValue = "A"
  ∧ initialState.wdg.ditherNameValue.length = 1
  ∧ getDitherCmd initialState = Except.error "IndexError: string index out of range"
  ∧ ditherNameWdgCallback initialState
      = Except.error "IndexError: string index out of range" :=
  ⟨rfl, rfl, rfl, rfl, rfl⟩

/-- Claim C1: in every successful run of the exposure script, when the
dither setting differs from its default the dither command is issued and
finishes before the exposure command is issued, and when `getDitherCmd`
returns `None` no dither command is issued at all — the trace is exactly the
two awaited exposure events. -/
theorem exposureScript_orders_dither_before_expose (s : ExposeWdgState)
    (tr : List ScriptEvent) (h : exposureScriptRun s = Except.ok tr) :
    (∀ d, getDitherCmd s = Except.ok (some d) →
        ∃ e, getExposureCmd s = Except.ok e ∧
          tr = [ScriptEvent.cmdIssued actor d, ScriptEvent.cmdFinished actor d,
                ScriptEvent.cmdIssued actor e, ScriptEvent.cmdFinished actor e])
  ∧ (getDitherCmd s = Except.ok none →
        ∃ e, getExposureCmd s = Except.ok e ∧
          tr = [ScriptEvent.cmdIssued actor e, ScriptEvent.cmdFinished actor e]) := by
  constructor
  · intro d hd
    rw [exposureScriptRun, hd] at h
    cases he : getExposureCmd s with
    | error e => rw [he] at h; exact Except.noConfusion h
    | ok e =>
      rw [he] at h
      refine ⟨e, rfl, ?_⟩
      injection h with h
      rw [← h]
      rfl
  · intro hd
    rw [exposureScriptRun, hd] at h
    cases he : getExposureCmd s with
    | error e => rw [he] at h; exact Except.noConfusion h
    | ok e =>
      rw [he] at h
      refine ⟨e, rfl, ?_⟩
      injection h with h
      rw [← h]
      rfl

/-- The trace the exposure script produces from `ditherSetState`. -/
def ditherSetTrace : List ScriptEvent :=
  [ScriptEvent.cmdIssued actor "dither namedpos=A",
   ScriptEvent.cmdFinished actor "dither namedpos=A",
   ScriptEvent.cmdIssued actor "expose nreads=60; object=Object",
   ScriptEvent.cmdFinished actor "expose nreads=60; object=Object"]

/-- Witness for C1: from `ditherSetState` the script issues and awaits the
dither command and only then issues the exposure command. -/
theorem exposureScript_orders_dither_before_expose_witness :
    ∃ e, getExposureCmd ditherSetState = Except.ok e ∧
      ditherSetTrace = [ScriptEvent.cmdIssued actor "dither namedpos=A",
        ScriptEvent.cmdFinished actor "dither namedpos=A",
        ScriptEvent.cmdIssued actor e, ScriptEvent.cmdFinished actor e] :=
  (exposureScript_orders_dither_before_expose ditherSetState ditherSetTrace rfl).1
    "dither namedpos=A" rfl

/-- Claim C5: when a named dither position is selected (character 1 of the
selected name is a space) and is not the default, `getDitherCmd` returns
"dither namedpos=" followed by the single-letter position name; when "Any"
style selection routes to the entry and a pixel position `p` is entered and
is not the default, it returns "dither pixelpos=" followed by `p` formatted
with exactly two digits after the decimal point. -/
theorem getDitherCmd_wire_format (s : ExposeWdgState) :
    (∀ c0 rest, (s.wdg.ditherNameValue).data = c0 :: ' ' :: rest →
        s.wdg.ditherNameDefault ≠ some s.wdg.ditherNameValue →
        getDitherCmd s = Except.ok (some ("dither namedpos=" ++ String.mk [c0])))
  ∧ (∀ c0 c1 rest p, (s.wdg.ditherNameValue).data = c0 :: c1 :: rest → c1 ≠ ' ' →
        s.wdg.ditherPosValue = some p → s.wdg.ditherPosValue ≠ s.wdg.ditherPosDefault →
        getDitherCmd s = Except.ok (some ("dither pixelpos=" ++ fmt2 p))
        ∧ ∃ pre frac, fmt2 p = pre ++ "." ++ frac ∧ frac.length = 2
            ∧ frac.data.all Char.isDigit = true) := by
  constructor
  · intro c0 rest hdata hdef
    simp only [getDitherCmd, hdata, if_true]
    rw [if_neg hdef]
  · intro c0 c1 rest p hdata hc1 hp hdef
    refine ⟨?_, fmt2_two_decimals p⟩
    simp only [getDitherCmd, hdata]
    rw [if_neg hc1, if_neg hdef, hp]

unseal Rat.mul in
/-- Witness for C5: with the A position selected (not default) the named
command is produced, and with "Any" selected and 12.34 pixels entered the
pixel command "dither pixelpos=12.34" is produced. -/
theorem getDitherCmd_wire_format_witness :
    getDitherCmd ditherSetState = Except.ok (some "dither namedpos=A")
  ∧ getDitherCmd pixelState = Except.ok (some "dither pixelpos=12.34") := by
  constructor
  · exact ((getDitherCmd_wire_format ditherSetState).1 'A' " 12.5 pixels".data rfl
      (by decide)).trans rfl
  · exact (((getDitherCmd_wire_format pixelState).2 'A' 'n' "y".data (mkRat 1234 100) rfl
      (by decide) rfl (by decide)).1).trans rfl

/-- Claim C7: after `enableButtons`, Expose is enabled exactly when the
script runner is not executing and the exposure state is none of Exposing,
READING, INTEGRATING, PROCESSING, UTR; Stop is enabled exactly when the
exposure state is one of those running states; Cancel is enabled exactly
when the script runner is executing. -/
theorem enableButtons_spec (s : ExposeWdgState) :
    ((enableButtons s).wdg.exposeBtnEnabled = true ↔
      (s.scriptRunnerIsExecuting = false ∧
        ∀ st, s.model.exposureState.expState = some st →
          st ∉ RunningExposureStates))
  ∧ ((enableButtons s).wdg.stopBtnEnabled = true ↔
      (∃ st, s.model.exposureState.expState = some st ∧ st ∈ RunningExposureStates))
  ∧ ((enableButtons s).wdg.cancelBtnEnabled = true ↔
      s.scriptRunnerIsExecuting = true) := by
  have hb : ∀ st, s.model.exposureState.expState = some st →
      (isExposing s = true ↔ st ∈ RunningExposureStates) := by
    intro st hst
    simp [isExposing, hst]
  cases hst : s.model.exposureState.expState with
  | none =>
    simp [enableButtons, isExposing, hst]
  | some st =>
    by_cases hmem : st ∈ RunningExposureStates <;>
      simp [enableButtons, isExposing, hst, hmem]

/-- Witness for C7: while an exposure is reported running and the script is
idle, Stop is enabled (via the claim's characterisation). -/
theorem enableButtons_spec_witness :
    (enableButtons exposingState).wdg.stopBtnEnabled = true :=
  (enableButtons_spec exposingState).2.1.mpr ⟨"Exposing", rfl, by decide⟩

/-- Claim C10: the estimated-time display is a function of the read count
and the per-read time: an empty reads field clears the label; an undefined
`utrReadTime` shows " ? sec" marked not current; otherwise the label shows
the product rounded to a whole number of seconds, with currency taken from
the `utrReadTime` keyword. -/
theorem estimated_time_spec (s : ExposeWdgState) :
    (s.wdg.numReadsValue = none →
        (numReadsWdgCallback s).wdg.estReadTimeText = ""
        ∧ (numReadsWdgCallback s).wdg.estReadTimeIsCurrent = true)
  ∧ (∀ n : ℤ, s.wdg.numReadsValue = some n → s.model.utrReadTime.readTime = none →
        (numReadsWdgCallback s).wdg.estReadTimeText = " ? sec"
        ∧ (numReadsWdgCallback s).wdg.estReadTimeIsCurrent = false)
  ∧ (∀ (n : ℤ) (t : ℚ), s.wdg.numReadsValue = some n →
        s.model.utrReadTime.readTime = some t →
        (numReadsWdgCallback s).wdg.estReadTimeText
          = " " ++ toString (roundHalfEven ((n : ℚ) * t)) ++ " sec"
        ∧ (numReadsWdgCallback s).wdg.estReadTimeIsCurrent
          = s.model.utrReadTime.isCurrent) := by
  refine ⟨?_, ?_, ?_⟩
  · intro hn
    unfold numReadsWdgCallback
    rw [hn]
    exact ⟨rfl, rfl⟩
  · intro n hn ht
    unfold numReadsWdgCallback
    rw [hn, ht]
    exact ⟨rfl, rfl⟩
  · intro n t hn ht
    unfold numReadsWdgCallback
    rw [hn, ht]
    exact ⟨rfl, rfl⟩

unseal Rat.mul in
/-- Witness for C10: 60 reads at 10.6 seconds per read shows " 636 sec",
current because the keyword is current. -/
theorem estimated_time_spec_witness :
    (numReadsWdgCallback utrKnownState).wdg.estReadTimeText = " 636 sec"
  ∧ (numReadsWdgCallback utrKnownState).wdg.estReadTimeIsCurrent = true := by
  have h := (estimated_time_spec utrKnownState).2.2 60 (mkRat 53 5) rfl rfl
  exact ⟨h.1.trans rfl, h.2⟩

/-- Counterexample to C3 as stated: `_ditherPositionCallback` does not
ignore an update whose element 0 is undefined.  Invoked on the initial state
with a fully undefined `ditherPosition` keyword it still runs, setting the
dither name default to item 2 ("Any"), so the widget state changes. -/
theorem ditherPositionCallback_processes_undefined :
    undefinedDitherPosition.pos = none
  ∧ ditherPositionCallback undefinedDitherPosition initialState ≠ initialState := by
  refine ⟨rfl, fun h => ?_⟩
  have hk : (ditherPositionCallback undefinedDitherPosition initialState).wdg.ditherNameDefault
      = initialState.wdg.ditherNameDefault := by rw [h]
  rw [show (ditherPositionCallback undefinedDitherPosition initialState).wdg.ditherNameDefault
      = some "Any" from rfl] at hk
  exact Option.noConfusion hk

/-- Claim C3 as amended: the guarded callbacks do skip an update whose
element 0 is undefined, leaving the state unchanged — `_ditherLimitsCallback`
and `_ditherNamedPositionsCallback` skip when any element (so in particular
element 0) is `None`, and `_exposureTypeListCallback` and
`_exposureStateCallback` skip when element 0 is `None`;
`_ditherPositionCallback` is excluded, being unguarded. -/
theorem guarded_callbacks_skip_undefined (s : ExposeWdgState)
    (kvL : DitherLimitsKV) (kvN : DitherNamedPositionsKV)
    (kvT : ExposureTypeListKV) (kvS : ExposureStateKV) :
    (kvL.minPos = none → ditherLimitsCallback kvL s = s)
  ∧ (kvN.aPos = none → ditherNamedPositionsCallback kvN s = Except.ok s)
  ∧ (kvT.elems.getD 0 none = none → exposureTypeListCallback kvT s = s)
  ∧ (kvS.expState = none → exposureStateCallback kvS s = s) := by
  refine ⟨?_, ?_, ?_, ?_⟩
  · intro h
    unfold ditherLimitsCallback
    rw [if_pos (Or.inl h)]
  · intro h
    unfold ditherNamedPositionsCallback
    rw [if_pos (Or.inl h)]
  · intro h
    unfold exposureTypeListCallback
    rw [if_pos h]
  · intro h
    unfold exposureStateCallback
    rw [if_pos h]

/-- Witness for amended C3: each guarded callback leaves the initial state
unchanged when fed a keyword value whose element 0 is undefined. -/
theorem guarded_callbacks_skip_undefined_witness :
    ditherLimitsCallback { minPos := none, maxPos := some 1, isCurrent := true }
        initialState = initialState
  ∧ ditherNamedPositionsCallback { aPos := none, bPos := some 1, isCurrent := true }
        initialState = Except.ok initialState
  ∧ exposureTypeListCallback { elems := [none, some "Dark"], isCurrent := true }
        initialState = initialState
  ∧ exposureStateCallback
        { expState := none, expType := some "Object", nReads := some 10, isCurrent := true }
        initialState = initialState := by
  have h := guarded_callbacks_skip_undefined initialState
    { minPos := none, maxPos := some 1, isCurrent := true }
    { aPos := none, bPos := some 1, isCurrent := true }
    { elems := [none, some "Dark"], isCurrent := true }
    { expState := none, expType := some "Object", nReads := some 10, isCurrent := true }
  exact ⟨h.1 rfl, h.2.1 rfl, h.2.2.1 rfl, h.2.2.2 rfl⟩

/-- Claim C8: keyword variables are read-only to the widget layer — every
callback leaves the keyword-model part of the state (all keyword elements
and validity flags) unchanged, whatever keyword values it is fed; for the
fallible callbacks this holds on every successful run. -/
theorem callbacks_leave_model_unchanged (s : ExposeWdgState)
    (kvP : DitherPositionKV) (kvL : DitherLimitsKV) (kvN : DitherNamedPositionsKV)
    (kvT : ExposureTypeListKV) (kvS : ExposureStateKV) :
    (ditherPositionCallback kvP s).model = s.model
  ∧ (ditherLimitsCallback kvL s).model = s.model
  ∧ (∀ s', ditherNamedPositionsCallback kvN s = Except.ok s' → s'.model = s.model)
  ∧ (exposureTypeListCallback kvT s).model = s.model
  ∧ (exposureStateCallback kvS s).model = s.model
  ∧ (numReadsWdgCallback s).model = s.model
  ∧ (∀ s', ditherNameWdgCallback s = Except.ok s' → s'.model = s.model) := by
  refine ⟨rfl, ?_, ?_, ?_, ?_, ?_, ?_⟩
  · unfold ditherLimitsCallback
    split <;> rfl
  · intro s' h
    unfold ditherNamedPositionsCallback at h
    split at h
    · injection h with h
      rw [← h]
    · split at h
      · exact Except.noConfusion h
      · dsimp only [] at h
        split at h
        · exact Except.noConfusion h
        · split at h
          · injection h with h
            rw [← h]
          · exact Except.noConfusion h
  · unfold exposureTypeListCallback
    split <;> rfl
  · unfold exposureStateCallback
    split <;> rfl
  · unfold numReadsWdgCallback
    split
    · rfl
    · split <;> rfl
  · intro s' h
    unfold ditherNameWdgCallback at h
    split at h
    · exact Except.noConfusion h
    · split at h <;>
      · injection h with h
        rw [← h]

unseal Rat.mul in
/-- Witness for C8: the model part survives a run of every callback on the
initial state, including a successful rebuild of the dither menu from a
fully defined `ditherNamedPositions` keyword. -/
theorem callbacks_leave_model_unchanged_witness :
    (numReadsWdgCallback initialState).model = initialState.model
  ∧ namedPosUpdatedState.model = initialState.model := by
  have h := callbacks_leave_model_unchanged initialState
    undefinedDitherPosition
    { minPos := none, maxPos := none, isCurrent := false }
    namedPosKV
    { elems := [], isCurrent := false }
    { expState := none, expType := none, nReads := none, isCurrent := false }
  exact ⟨h.2.2.2.2.2.1, h.2.2.1 namedPosUpdatedState (by rfl)⟩

end Apogee
